import Mathlib

/-!
Shallow embedding of `src/hivemq_random_data.py`, an IoT cargo-telemetry
simulator that generates synthetic readings and publishes them over MQTT.

Python floats are modelled as exact rationals (`ℚ`); Python's `round(x, n)`
(round-half-to-even to `n` decimal places) is modelled exactly on `ℚ`.
Python dicts passed to `json.dumps` are modelled as a `Json` value tree;
the textual encode/decode pair (`json.dumps` / `json.loads`), which the
script delegates to the standard library and which is mutually inverse on
such trees, is modelled as the identity on the tree, so the round-trip
claim is stated as reconstruction of the reading from its `Json` tree.
The MQTT client (`paho.mqtt`) is an external collaborator: its calls are
recorded as trace events, and exceptions that its calls (or `time.sleep`)
may raise are injected through an environment `Env`.
-/

/-- Python exceptions, split the way `run_simulation`'s handler splits them:
`KeyboardInterrupt` versus every other runtime error. -/
inductive Exc where
  | keyboardInterrupt : Exc
  | otherErr : String → Exc
deriving DecidableEq

/-- JSON values, as produced by the dict literal in `generate_cargo_data`
(only the constructors that payload uses). -/
inductive Json where
  | str : String → Json
  | num : ℚ → Json
  | obj : List (String × Json) → Json

/-- Configuration constants from the top of `hivemq_random_data.py`. -/
def BROKER_ADDRESS : String := "YOUR_CLUSTER_URL.s2.eu.hivemq.cloud"

def PORT : ℕ := 8883

def USERNAME : String := "YOUR_USERNAME"

def PASSWORD : String := "YOUR_PASSWORD"

def TOPIC : String := "cargo/telemetry"

def INTERVAL : ℕ := 5

def DURATION_HOURS : ℕ := 5

/-- `TOTAL_STEPS = (DURATION_HOURS * 3600) // INTERVAL` (Python `//` on
non-negative ints is `Nat` division). -/
def TOTAL_STEPS : ℕ := (DURATION_HOURS * 3600) / INTERVAL

/-- Round-half-to-even to the nearest integer, the rounding mode of
Python's builtin `round`. -/
def roundHalfEven (x : ℚ) : ℤ :=
  if x - (⌊x⌋ : ℚ) < 1 / 2 then ⌊x⌋
  else if 1 / 2 < x - (⌊x⌋ : ℚ) then ⌊x⌋ + 1
  else if ⌊x⌋ % 2 = 0 then ⌊x⌋ else ⌊x⌋ + 1

/-- Python's `round(x, n)`: round-half-to-even to `n` decimal places. -/
def roundTo (n : ℕ) (x : ℚ) : ℚ :=
  (roundHalfEven (x * 10 ^ n) : ℚ) / 10 ^ n

/-- `generate_cargo_data`: builds one telemetry reading. Inputs that the
Python function draws from ambient state are passed explicitly: `iso` is
`datetime.utcnow().isoformat()`, `u1`/`u2` are the two
`random.uniform(-0.001, 0.001)` draws, `u3` is `random.uniform(-0.5, 0.5)`,
and `r` is the `random.random()` draw. -/
def generate_cargo_data (iso : String) (u1 u2 u3 r : ℚ) : Json :=
  Json.obj
    [ ("device_id", Json.str "CARGO-ESP32-001"),
      ("timestamp", Json.str (iso ++ "Z")),
      ("location", Json.obj
        [ ("lat", Json.num (roundTo 4 (1.3521 + u1))),
          ("lon", Json.num (roundTo 4 (103.8198 + u2))) ]),
      ("temperature", Json.num (roundTo 1 (4.2 + u3))),
      ("battery", Json.num (roundTo 1 (87 - r * 2))) ]

/-- Key lookup in a JSON object (Python dict subscripting / `dict.get`). -/
def jlookup (j : Json) (k : String) : Option Json :=
  match j with
  | Json.obj fields => fields.lookup k
  | _ => none

/-- Two-level key lookup (`data["location"]["lat"]` style). -/
def jlookup2 (j : Json) (k1 k2 : String) : Option Json :=
  match jlookup j k1 with
  | some j' => jlookup j' k2
  | none => none

/-- Numeric field access with a junk default; the script only applies it to
generated readings, where the key is always present and numeric
(`data['temperature']` in the progress log line). -/
def getNum (j : Json) (k : String) : ℚ :=
  match jlookup j k with
  | some (Json.num q) => q
  | _ => 0

/-- Top-level key list of a JSON object. -/
def topKeys (j : Json) : List String :=
  match j with
  | Json.obj fields => fields.map Prod.fst
  | _ => []

/-- The telemetry reading record: the six leaf fields of the data model. -/
structure Reading where
  device_id : String
  timestamp : String
  lat : ℚ
  lon : ℚ
  temperature : ℚ
  battery : ℚ

/-- Parse a JSON tree back into a `Reading` (the shape `json.loads` hands
back from a serialized reading, decomposed into its six fields). -/
def readingOfJson (j : Json) : Option Reading :=
  match jlookup j "device_id", jlookup j "timestamp", jlookup j "location",
        jlookup j "temperature", jlookup j "battery" with
  | some (Json.str d), some (Json.str ts), some loc,
    some (Json.num t), some (Json.num b) =>
    match jlookup loc "lat", jlookup loc "lon" with
    | some (Json.num la), some (Json.num lo) => some ⟨d, ts, la, lo, t, b⟩
    | _, _ => none
  | _, _, _, _, _ => none

/-- Re-serialize a `Reading` to its JSON tree. -/
def readingToJson (rdg : Reading) : Json :=
  Json.obj
    [ ("device_id", Json.str rdg.device_id),
      ("timestamp", Json.str rdg.timestamp),
      ("location", Json.obj
        [ ("lat", Json.num rdg.lat),
          ("lon", Json.num rdg.lon) ]),
      ("temperature", Json.num rdg.temperature),
      ("battery", Json.num rdg.battery) ]

-- Bounds for `roundHalfEven` / `roundTo`.

lemma floor_le_roundHalfEven (x : ℚ) : ⌊x⌋ ≤ roundHalfEven x := by
  unfold roundHalfEven
  split_ifs <;> omega

lemma roundHalfEven_le_ceil (x : ℚ) : roundHalfEven x ≤ ⌈x⌉ := by
  unfold roundHalfEven
  have hfc : ⌊x⌋ ≤ ⌈x⌉ := Int.floor_le_ceil x
  split_ifs with h1 h2 h3
  · exact hfc
  · have hlt : (⌊x⌋ : ℚ) < x := by linarith
    have : ⌊x⌋ < ⌈x⌉ := Int.lt_ceil.mpr hlt
    omega
  · exact hfc
  · have heq : x - (⌊x⌋ : ℚ) = 1 / 2 := le_antisymm (not_lt.mp h2) (not_lt.mp h1)
    have hlt : (⌊x⌋ : ℚ) < x := by linarith
    have : ⌊x⌋ < ⌈x⌉ := Int.lt_ceil.mpr hlt
    omega

/-- If `x` lies between two multiples of `10 ^ (-n)`, so does `round(x, n)`. -/
lemma roundTo_bounds (n : ℕ) (A B : ℤ) (x : ℚ)
    (hA : (A : ℚ) / 10 ^ n ≤ x) (hB : x ≤ (B : ℚ) / 10 ^ n) :
    (A : ℚ) / 10 ^ n ≤ roundTo n x ∧ roundTo n x ≤ (B : ℚ) / 10 ^ n := by
  have hp : (0 : ℚ) < 10 ^ n := by positivity
  have hA' : (A : ℚ) ≤ x * 10 ^ n := (div_le_iff₀ hp).mp hA
  have hB' : x * 10 ^ n ≤ (B : ℚ) := (le_div_iff₀ hp).mp hB
  have h1 : A ≤ roundHalfEven (x * 10 ^ n) :=
    le_trans (Int.le_floor.mpr hA') (floor_le_roundHalfEven _)
  have h2 : roundHalfEven (x * 10 ^ n) ≤ B :=
    le_trans (roundHalfEven_le_ceil _) (Int.ceil_le.mpr hB')
  unfold roundTo
  constructor
  · exact (div_le_div_iff_of_pos_right hp).mpr (by exact_mod_cast h1)
  · exact (div_le_div_iff_of_pos_right hp).mpr (by exact_mod_cast h2)

/-- `round(x, n)` is an integer multiple of `10 ^ (-n)`. -/
lemma roundTo_is_decimal (n : ℕ) (x : ℚ) :
    ∃ k : ℤ, roundTo n x = (k : ℚ) / 10 ^ n :=
  ⟨roundHalfEven (x * 10 ^ n), rfl⟩

/-- Observable actions of `run_simulation`: console output, the calls made
on the MQTT client, and the sleep between iterations. -/
inductive Event where
  | consoleConnecting : Event
  | connect : String → ℕ → ℕ → Event
  | loopStart : Event
  | publish : String → Json → ℕ → Event
  | progress : ℕ → ℕ → ℚ → Event
  | sleep : ℕ → Event
  | consoleStopping : Event
  | loopStop : Event
  | disconnect : Event

/-- The ambient state `run_simulation` interacts with: the wall clock and
random source consumed at each iteration, and the exceptions (if any) that
the external calls raise — `connectErr` for `client.connect`, and per
iteration `publishErr i` for `client.publish`, `sleepErr i` for
`time.sleep` (a `KeyboardInterrupt` arrives through one of these). -/
structure Env where
  iso : ℕ → String
  u1 : ℕ → ℚ
  u2 : ℕ → ℚ
  u3 : ℕ → ℚ
  rr : ℕ → ℚ
  connectErr : Option Exc
  publishErr : ℕ → Option Exc
  sleepErr : ℕ → Option Exc

/-- The reading generated at iteration `i` under environment `env`. -/
def readingAt (env : Env) (i : ℕ) : Json :=
  generate_cargo_data (env.iso i) (env.u1 i) (env.u2 i) (env.u3 i) (env.rr i)

/-- The `for i in range(TOTAL_STEPS)` body, iterated: `i` is the current
index, the second argument the remaining iteration count. Each iteration
publishes the fresh reading, logs progress and sleeps; an exception raised
by publish or sleep aborts the loop and is returned as the outcome. -/
def runLoop (env : Env) : ℕ → ℕ → List Event × Option Exc
  | _, 0 => ([], none)
  | i, rem + 1 =>
    match env.publishErr i with
    | some e => ([Event.publish TOPIC (readingAt env i) 1], some e)
    | none =>
      match env.sleepErr i with
      | some e =>
        ([Event.publish TOPIC (readingAt env i) 1,
          Event.progress (i + 1) TOTAL_STEPS (getNum (readingAt env i) "temperature"),
          Event.sleep INTERVAL], some e)
      | none =>
        let rest := runLoop env (i + 1) rem
        (Event.publish TOPIC (readingAt env i) 1 ::
          Event.progress (i + 1) TOTAL_STEPS (getNum (readingAt env i) "temperature") ::
          Event.sleep INTERVAL :: rest.1, rest.2)

/-- The `try:` block of `run_simulation`: print, `client.connect` (whose
exception, if any, aborts the block), `client.loop_start`, then the loop. -/
def runTryBlock (env : Env) : List Event × Option Exc :=
  match env.connectErr with
  | some e => ([Event.consoleConnecting, Event.connect BROKER_ADDRESS PORT 60], some e)
  | none =>
    let loop := runLoop env 0 TOTAL_STEPS
    (Event.consoleConnecting :: Event.connect BROKER_ADDRESS PORT 60 ::
      Event.loopStart :: loop.1, loop.2)

/-- `run_simulation`: the try block, then `except KeyboardInterrupt`
(which prints and swallows only that exception), then the `finally:` block
(`client.loop_stop(); client.disconnect()`) on every path. The second
component is the exception escaping `run_simulation`, if any. -/
def run_simulation (env : Env) : List Event × Option Exc :=
  match runTryBlock env with
  | (evs, some Exc.keyboardInterrupt) =>
    (evs ++ [Event.consoleStopping, Event.loopStop, Event.disconnect], none)
  | (evs, none) => (evs ++ [Event.loopStop, Event.disconnect], none)
  | (evs, some (Exc.otherErr m)) =>
    (evs ++ [Event.loopStop, Event.disconnect], some (Exc.otherErr m))

/-- Recognizers for counting trace events. -/
def isPublishEv : Event → Bool
  | Event.publish _ _ _ => true
  | _ => false

def isConnectEv : Event → Bool
  | Event.connect _ _ _ => true
  | _ => false

def isLoopStopEv : Event → Bool
  | Event.loopStop => true
  | _ => false

def isDisconnectEv : Event → Bool
  | Event.disconnect => true
  | _ => false

def countPublish (l : List Event) : ℕ := l.countP isPublishEv

/-- An environment in which no external call raises: the run goes to
completion without interruption. -/
def envClean : Env :=
  { iso := fun _ => "2025-01-01T00:00:00"
    u1 := fun _ => 0, u2 := fun _ => 0, u3 := fun _ => 0, rr := fun _ => 0
    connectErr := none, publishErr := fun _ => none, sleepErr := fun _ => none }

/-- An environment in which `client.connect` raises a (non-interrupt)
socket error. -/
def envConnFail : Env :=
  { envClean with connectErr := some (Exc.otherErr "socket.gaierror") }

/-- An environment in which the first `client.publish` call raises a
runtime error. -/
def envPubFail : Env :=
  { envClean with publishErr := fun i => if i = 0 then some (Exc.otherErr "ValueError") else none }

/-- An environment in which a `KeyboardInterrupt` arrives during the first
iteration's sleep. -/
def envInterrupted : Env :=
  { envClean with sleepErr := fun i => if i = 0 then some Exc.keyboardInterrupt else none }

-- Claim theorems about the telemetry generator.

/-- C4: for every reading returned by `generate_cargo_data`, serializing it
and parsing it back yields an object with the same fields and equal values:
decomposing the reading's JSON tree into its six fields succeeds, and
re-serializing that decomposition reproduces the original object exactly
(the round-trip is the identity on generated readings). -/
theorem reading_roundtrip (iso : String) (u1 u2 u3 r : ℚ) :
    ∃ rdg : Reading,
      readingOfJson (generate_cargo_data iso u1 u2 u3 r) = some rdg ∧
      readingToJson rdg = generate_cargo_data iso u1 u2 u3 r :=
  ⟨⟨"CARGO-ESP32-001", iso ++ "Z", roundTo 4 (1.3521 + u1), roundTo 4 (103.8198 + u2),
    roundTo 1 (4.2 + u3), roundTo 1 (87 - r * 2)⟩, rfl, rfl⟩

/-- C5: for every reading returned by `generate_cargo_data` (with the
random draws in the ranges `random.uniform(-0.001, 0.001)` produces),
`location.lat` lies within the jitter bound `0.001` of the base latitude
`1.3521`, `location.lon` lies within `0.001` of the base longitude
`103.8198`, and both are rounded to 4 decimal places. -/
theorem lat_lon_within_jitter (iso : String) (u1 u2 u3 r : ℚ)
    (h1 : -(1 / 1000) ≤ u1) (h2 : u1 ≤ 1 / 1000)
    (h3 : -(1 / 1000) ≤ u2) (h4 : u2 ≤ 1 / 1000) :
    ∃ la lo : ℚ,
      jlookup2 (generate_cargo_data iso u1 u2 u3 r) "location" "lat" = some (Json.num la) ∧
      jlookup2 (generate_cargo_data iso u1 u2 u3 r) "location" "lon" = some (Json.num lo) ∧
      |la - 1.3521| ≤ 1 / 1000 ∧ (∃ k : ℤ, la = (k : ℚ) / 10 ^ 4) ∧
      |lo - 103.8198| ≤ 1 / 1000 ∧ (∃ k : ℤ, lo = (k : ℚ) / 10 ^ 4) := by
  refine ⟨roundTo 4 (1.3521 + u1), roundTo 4 (103.8198 + u2), rfl, rfl, ?_,
    roundTo_is_decimal 4 _, ?_, roundTo_is_decimal 4 _⟩
  · have e1 : ((13511 : ℤ) : ℚ) / 10 ^ 4 = 1.3521 - 1 / 1000 := by norm_num
    have e2 : ((13531 : ℤ) : ℚ) / 10 ^ 4 = 1.3521 + 1 / 1000 := by norm_num
    have hb := roundTo_bounds 4 13511 13531 (1.3521 + u1)
      (by rw [e1]; linarith) (by rw [e2]; linarith)
    rw [e1, e2] at hb
    rw [abs_le]
    exact ⟨by linarith [hb.1], by linarith [hb.2]⟩
  · have e1 : ((1038188 : ℤ) : ℚ) / 10 ^ 4 = 103.8198 - 1 / 1000 := by norm_num
    have e2 : ((1038208 : ℤ) : ℚ) / 10 ^ 4 = 103.8198 + 1 / 1000 := by norm_num
    have hb := roundTo_bounds 4 1038188 1038208 (103.8198 + u2)
      (by rw [e1]; linarith) (by rw [e2]; linarith)
    rw [e1, e2] at hb
    rw [abs_le]
    exact ⟨by linarith [hb.1], by linarith [hb.2]⟩

/-- Witness for C5 at the concrete draws `u1 = u2 = 0`. -/
theorem lat_lon_within_jitter_witness :
    ∃ la lo : ℚ,
      jlookup2 (generate_cargo_data "2025-01-01T00:00:00" 0 0 0 0) "location" "lat"
        = some (Json.num la) ∧
      jlookup2 (generate_cargo_data "2025-01-01T00:00:00" 0 0 0 0) "location" "lon"
        = some (Json.num lo) ∧
      |la - 1.3521| ≤ 1 / 1000 ∧ (∃ k : ℤ, la = (k : ℚ) / 10 ^ 4) ∧
      |lo - 103.8198| ≤ 1 / 1000 ∧ (∃ k : ℤ, lo = (k : ℚ) / 10 ^ 4) :=
  lat_lon_within_jitter "2025-01-01T00:00:00" 0 0 0 0
    (by norm_num) (by norm_num) (by norm_num) (by norm_num)

/-- C6: for every reading returned by `generate_cargo_data` (with the
draws in the ranges `random.uniform(-0.5, 0.5)` and `random.random()`
produce), temperature and battery are rounded to one decimal place,
temperature lies within the jitter bound `0.5` of the base value `4.2`,
and battery lies between `87 - 2` and the base value `87`. -/
theorem temp_battery_bounds (iso : String) (u1 u2 u3 r : ℚ)
    (h1 : -(1 / 2) ≤ u3) (h2 : u3 ≤ 1 / 2) (h3 : 0 ≤ r) (h4 : r < 1) :
    ∃ t b : ℚ,
      jlookup (generate_cargo_data iso u1 u2 u3 r) "temperature" = some (Json.num t) ∧
      jlookup (generate_cargo_data iso u1 u2 u3 r) "battery" = some (Json.num b) ∧
      |t - 4.2| ≤ 1 / 2 ∧ (∃ k : ℤ, t = (k : ℚ) / 10 ^ 1) ∧
      87 - 2 ≤ b ∧ b ≤ 87 ∧ (∃ k : ℤ, b = (k : ℚ) / 10 ^ 1) := by
  refine ⟨roundTo 1 (4.2 + u3), roundTo 1 (87 - r * 2), rfl, rfl, ?_,
    roundTo_is_decimal 1 _, ?_, ?_, roundTo_is_decimal 1 _⟩
  · have e1 : ((37 : ℤ) : ℚ) / 10 ^ 1 = 4.2 - 1 / 2 := by norm_num
    have e2 : ((47 : ℤ) : ℚ) / 10 ^ 1 = 4.2 + 1 / 2 := by norm_num
    have hb := roundTo_bounds 1 37 47 (4.2 + u3)
      (by rw [e1]; linarith) (by rw [e2]; linarith)
    rw [e1, e2] at hb
    rw [abs_le]
    exact ⟨by linarith [hb.1], by linarith [hb.2]⟩
  · have e1 : ((850 : ℤ) : ℚ) / 10 ^ 1 = 85 := by norm_num
    have hb := roundTo_bounds 1 850 870 (87 - r * 2)
      (by rw [e1]; linarith) (by norm_num; linarith)
    have := hb.1
    rw [e1] at this
    linarith
  · have e2 : ((870 : ℤ) : ℚ) / 10 ^ 1 = 87 := by norm_num
    have hb := roundTo_bounds 1 850 870 (87 - r * 2)
      (by norm_num; linarith) (by rw [e2]; linarith)
    have := hb.2
    rw [e2] at this
    linarith

/-- Witness for C6 at the concrete draws `u3 = 0`, `r = 0`. -/
theorem temp_battery_bounds_witness :
    ∃ t b : ℚ,
      jlookup (generate_cargo_data "2025-01-01T00:00:00" 0 0 0 0) "temperature"
        = some (Json.num t) ∧
      jlookup (generate_cargo_data "2025-01-01T00:00:00" 0 0 0 0) "battery"
        = some (Json.num b) ∧
      |t - 4.2| ≤ 1 / 2 ∧ (∃ k : ℤ, t = (k : ℚ) / 10 ^ 1) ∧
      87 - 2 ≤ b ∧ b ≤ 87 ∧ (∃ k : ℤ, b = (k : ℚ) / 10 ^ 1) :=
  temp_battery_bounds "2025-01-01T00:00:00" 0 0 0 0
    (by norm_num) (by norm_num) (by norm_num) (by norm_num)

/-- C8: every reading returned by `generate_cargo_data` has `device_id`
equal to `"CARGO-ESP32-001"`, a non-empty timestamp string whose last
character is `'Z'`, and numeric (rational-valued) `location.lat`,
`location.lon`, `temperature` and `battery` fields. -/
theorem reading_wellformed (iso : String) (u1 u2 u3 r : ℚ) :
    jlookup (generate_cargo_data iso u1 u2 u3 r) "device_id"
      = some (Json.str "CARGO-ESP32-001") ∧
    (∃ ts : String,
      jlookup (generate_cargo_data iso u1 u2 u3 r) "timestamp" = some (Json.str ts) ∧
      ts ≠ "" ∧ ts.data.getLast? = some 'Z') ∧
    (∃ la lo t b : ℚ,
      jlookup2 (generate_cargo_data iso u1 u2 u3 r) "location" "lat" = some (Json.num la) ∧
      jlookup2 (generate_cargo_data iso u1 u2 u3 r) "location" "lon" = some (Json.num lo) ∧
      jlookup (generate_cargo_data iso u1 u2 u3 r) "temperature" = some (Json.num t) ∧
      jlookup (generate_cargo_data iso u1 u2 u3 r) "battery" = some (Json.num b)) := by
  refine ⟨rfl, ⟨iso ++ "Z", rfl, ?_, ?_⟩, ⟨_, _, _, _, rfl, rfl, rfl, rfl⟩⟩
  · intro h
    have hd : (iso ++ "Z").data = ("" : String).data := by rw [h]
    rw [String.data_append] at hd
    simp at hd
  · rw [String.data_append]
    exact List.getLast?_concat _

/-- C9: a reading never depends on a prior reading — `generate_cargo_data`
has no prior-reading input, and its battery field is a function of the
fresh `random.random()` draw alone; consequently the battery sequence is
not guaranteed to decrease: a later draw can produce a higher battery. -/
theorem battery_independent_each_tick :
    (∀ (iso iso' : String) (u1 u1' u2 u2' u3 u3' r : ℚ),
      getNum (generate_cargo_data iso u1 u2 u3 r) "battery"
        = getNum (generate_cargo_data iso' u1' u2' u3' r) "battery") ∧
    (∃ r0 r1 : ℚ, 0 ≤ r0 ∧ r0 < 1 ∧ 0 ≤ r1 ∧ r1 < 1 ∧
      getNum (generate_cargo_data "2025-01-01T00:00:00" 0 0 0 r0) "battery"
        < getNum (generate_cargo_data "2025-01-01T00:00:01" 0 0 0 r1) "battery") := by
  constructor
  · intro iso iso' u1 u1' u2 u2' u3 u3' r
    rfl
  · refine ⟨1 / 2, 0, by norm_num, by norm_num, by norm_num, by norm_num, ?_⟩
    show roundTo 1 (87 - 1 / 2 * 2) < roundTo 1 (87 - 0 * 2)
    norm_num [roundTo, roundHalfEven]

/-- C10: every reading returned by `generate_cargo_data` is an object with
exactly the five top-level keys `device_id`, `timestamp`, `location`,
`temperature`, `battery`, where `location` is a nested object with exactly
the two keys `lat` and `lon`. -/
theorem reading_key_structure (iso : String) (u1 u2 u3 r : ℚ) :
    (∃ fields, generate_cargo_data iso u1 u2 u3 r = Json.obj fields ∧
      fields.map Prod.fst = ["device_id", "timestamp", "location", "temperature", "battery"]) ∧
    (∃ loc, jlookup (generate_cargo_data iso u1 u2 u3 r) "location" = some (Json.obj loc) ∧
      loc.map Prod.fst = ["lat", "lon"]) :=
  ⟨⟨_, rfl, rfl⟩, ⟨_, rfl, rfl⟩⟩

-- Structural lemmas about the publish loop and the surrounding blocks.

lemma run_simulation_trace_eq (env : Env) :
    (run_simulation env).1 = (runTryBlock env).1 ++
      (if (runTryBlock env).2 = some Exc.keyboardInterrupt
        then [Event.consoleStopping, Event.loopStop, Event.disconnect]
        else [Event.loopStop, Event.disconnect]) := by
  unfold run_simulation
  rcases h : runTryBlock env with ⟨evs, out⟩
  rcases out with _ | e
  · simp
  · cases e <;> simp

lemma run_simulation_out_eq (env : Env) :
    (run_simulation env).2 = if (runTryBlock env).2 = some Exc.keyboardInterrupt
      then none else (runTryBlock env).2 := by
  unfold run_simulation
  rcases h : runTryBlock env with ⟨evs, out⟩
  rcases out with _ | e
  · simp
  · cases e <;> simp

lemma runLoop_publish_count (env : Env)
    (hp : ∀ i, env.publishErr i = none) (hs : ∀ i, env.sleepErr i = none) :
    ∀ rem i, countPublish (runLoop env i rem).1 = rem := by
  intro rem
  induction rem with
  | zero => intro i; rfl
  | succ n ih =>
    intro i
    simp only [runLoop, hp i, hs i]
    simp [countPublish, List.countP_cons, isPublishEv]
    exact ih (i + 1)

lemma runLoop_no_err (env : Env)
    (hp : ∀ i, env.publishErr i = none) (hs : ∀ i, env.sleepErr i = none) :
    ∀ rem i, (runLoop env i rem).2 = none := by
  intro rem
  induction rem with
  | zero => intro i; rfl
  | succ n ih =>
    intro i
    simp only [runLoop, hp i, hs i]
    exact ih (i + 1)

lemma runLoop_events (env : Env) :
    ∀ rem i ev, ev ∈ (runLoop env i rem).1 →
      (∃ j, ev = Event.publish TOPIC (readingAt env j) 1) ∨
      (∃ a b tq, ev = Event.progress a b tq) ∨ ev = Event.sleep INTERVAL := by
  intro rem
  induction rem with
  | zero => intro i ev h; simp [runLoop] at h
  | succ n ih =>
    intro i ev h
    rw [runLoop] at h
    rcases hpe : env.publishErr i with _ | e
    · rw [hpe] at h
      rcases hse : env.sleepErr i with _ | e'
      · rw [hse] at h
        simp only [List.mem_cons] at h
        rcases h with h | h | h | h
        · exact Or.inl ⟨i, h⟩
        · exact Or.inr (Or.inl ⟨_, _, _, h⟩)
        · exact Or.inr (Or.inr h)
        · exact ih (i + 1) ev h
      · rw [hse] at h
        simp only [List.mem_cons, List.not_mem_nil, or_false] at h
        rcases h with h | h | h
        · exact Or.inl ⟨i, h⟩
        · exact Or.inr (Or.inl ⟨_, _, _, h⟩)
        · exact Or.inr (Or.inr h)
    · rw [hpe] at h
      simp only [List.mem_cons, List.not_mem_nil, or_false] at h
      exact Or.inl ⟨i, h⟩

lemma runTryBlock_none (env : Env) (hc : env.connectErr = none) :
    runTryBlock env = (Event.consoleConnecting :: Event.connect BROKER_ADDRESS PORT 60 ::
      Event.loopStart :: (runLoop env 0 TOTAL_STEPS).1, (runLoop env 0 TOTAL_STEPS).2) := by
  unfold runTryBlock
  rw [hc]

lemma runTryBlock_some (env : Env) (e : Exc) (hc : env.connectErr = some e) :
    runTryBlock env
      = ([Event.consoleConnecting, Event.connect BROKER_ADDRESS PORT 60], some e) := by
  unfold runTryBlock
  rw [hc]

lemma runLoop_not_teardown (env : Env) (rem i : ℕ) (ev : Event)
    (h : ev ∈ (runLoop env i rem).1) :
    isLoopStopEv ev = false ∧ isDisconnectEv ev = false ∧ isConnectEv ev = false := by
  rcases runLoop_events env rem i ev h with ⟨j, rfl⟩ | ⟨a, b, tq, rfl⟩ | rfl <;>
    exact ⟨rfl, rfl, rfl⟩

lemma runLoop_publish_abort (env : Env) (i rem : ℕ) (e : Exc) (hrem : 0 < rem)
    (hp : env.publishErr i = some e) : (runLoop env i rem).2 = some e := by
  cases rem with
  | zero => omega
  | succ n => simp [runLoop, hp]

lemma runTryBlock_counts (env : Env) :
    (runTryBlock env).1.countP isLoopStopEv = 0 ∧
    (runTryBlock env).1.countP isDisconnectEv = 0 ∧
    (runTryBlock env).1.countP isConnectEv = 1 := by
  have hz : ∀ p : Event → Bool, (∀ ev ∈ (runLoop env 0 TOTAL_STEPS).1, p ev = false) →
      (runLoop env 0 TOTAL_STEPS).1.countP p = 0 := by
    intro p hp
    apply List.countP_eq_zero.mpr
    intro a ha
    simp [hp a ha]
  rcases hc : env.connectErr with _ | e
  · rw [runTryBlock_none env hc]
    refine ⟨?_, ?_, ?_⟩
    · simp [List.countP_cons, isLoopStopEv,
        hz isLoopStopEv (fun ev h => (runLoop_not_teardown env _ _ ev h).1)]
    · simp [List.countP_cons, isDisconnectEv,
        hz isDisconnectEv (fun ev h => (runLoop_not_teardown env _ _ ev h).2.1)]
    · simp [List.countP_cons, isConnectEv,
        hz isConnectEv (fun ev h => (runLoop_not_teardown env _ _ ev h).2.2)]
  · rw [runTryBlock_some env e hc]
    exact ⟨rfl, rfl, rfl⟩

-- Claim theorems about the publish loop and its error handling.

/-- C1: when the run goes to completion without interruption (no call
raises), the loop performs exactly `TOTAL_STEPS` publish calls, where
`TOTAL_STEPS = (DURATION_HOURS * 3600) // INTERVAL` (namely 3600). -/
theorem publish_count_eq_total_steps (env : Env) (hc : env.connectErr = none)
    (hp : ∀ i, env.publishErr i = none) (hs : ∀ i, env.sleepErr i = none) :
    countPublish (run_simulation env).1 = TOTAL_STEPS ∧
      TOTAL_STEPS = DURATION_HOURS * 3600 / INTERVAL ∧ TOTAL_STEPS = 3600 := by
  refine ⟨?_, rfl, rfl⟩
  have hno : (runLoop env 0 TOTAL_STEPS).2 = none := runLoop_no_err env hp hs TOTAL_STEPS 0
  have hcount : countPublish (runLoop env 0 TOTAL_STEPS).1 = TOTAL_STEPS :=
    runLoop_publish_count env hp hs TOTAL_STEPS 0
  show List.countP isPublishEv (run_simulation env).1 = TOTAL_STEPS
  rw [run_simulation_trace_eq env, runTryBlock_none env hc]
  simp [List.countP_append, List.countP_cons, isPublishEv, hno]
  exact hcount

/-- Witness for C1: the clean environment runs to completion with exactly
`TOTAL_STEPS` publishes. -/
theorem publish_count_eq_total_steps_witness :
    countPublish (run_simulation envClean).1 = TOTAL_STEPS :=
  (publish_count_eq_total_steps envClean rfl (fun _ => rfl) (fun _ => rfl)).1

/-- C3: on every exit path of `run_simulation` — normal completion, an
interrupt, or any other exception escaping the loop section — the trace
ends with `loop_stop` followed by `disconnect`, and each of the two
teardown calls occurs exactly once. -/
theorem teardown_exactly_once (env : Env) :
    (run_simulation env).1.countP isLoopStopEv = 1 ∧
    (run_simulation env).1.countP isDisconnectEv = 1 ∧
    ∃ pre, (run_simulation env).1 = pre ++ [Event.loopStop, Event.disconnect] := by
  have hts := runTryBlock_counts env
  rw [run_simulation_trace_eq env]
  refine ⟨?_, ?_, ?_⟩
  · rw [List.countP_append, hts.1]
    split_ifs <;> simp [List.countP_cons, isLoopStopEv]
  · rw [List.countP_append, hts.2.1]
    split_ifs <;> simp [List.countP_cons, isDisconnectEv]
  · split_ifs
    · exact ⟨(runTryBlock env).1 ++ [Event.consoleStopping], by simp⟩
    · exact ⟨(runTryBlock env).1, rfl⟩

/-- Counterexample to C2 as stated: in the environment where
`client.connect` raises a (non-interrupt) socket error, the error is NOT
caught — it propagates out of `run_simulation`, whose outcome is the
error, not `none`. -/
theorem connect_error_propagates_cex :
    envConnFail.connectErr = some (Exc.otherErr "socket.gaierror") ∧
    (run_simulation envConnFail).2 = some (Exc.otherErr "socket.gaierror") ∧
    (run_simulation envConnFail).2 ≠ none :=
  ⟨rfl, rfl, fun h => Option.noConfusion h⟩

/-- C2 (amended): only `KeyboardInterrupt` is caught at the top level of
`run_simulation`; an error raised by the synchronous connect step that is
not a `KeyboardInterrupt` propagates out of `run_simulation` (no retry:
connect is called exactly once), a `KeyboardInterrupt` escaping the try
block is caught, and any other runtime error raised in the loop body, such
as a failed publish call, propagates out of `run_simulation`. -/
theorem only_keyboard_interrupt_caught (env : Env) (m : String) :
    (env.connectErr = some (Exc.otherErr m) →
      (run_simulation env).2 = some (Exc.otherErr m)) ∧
    ((runTryBlock env).2 = some Exc.keyboardInterrupt →
      (run_simulation env).2 = none) ∧
    (env.connectErr = none → env.publishErr 0 = some (Exc.otherErr m) →
      (run_simulation env).2 = some (Exc.otherErr m)) ∧
    (run_simulation env).1.countP isConnectEv = 1 := by
  refine ⟨?_, ?_, ?_, ?_⟩
  · intro hc
    rw [run_simulation_out_eq env, runTryBlock_some env _ hc]
    simp
  · intro hki
    rw [run_simulation_out_eq env, hki]
    simp
  · intro hc hp0
    have habort : (runLoop env 0 TOTAL_STEPS).2 = some (Exc.otherErr m) :=
      runLoop_publish_abort env 0 TOTAL_STEPS _ (by decide) hp0
    rw [run_simulation_out_eq env, runTryBlock_none env hc]
    simp [habort]
  · have hts := runTryBlock_counts env
    rw [run_simulation_trace_eq env, List.countP_append, hts.2.2]
    split_ifs <;> simp [List.countP_cons, isConnectEv]

/-- Witness for C2 (amended) at the concrete failing-connect environment. -/
theorem only_keyboard_interrupt_caught_witness :
    (run_simulation envConnFail).2 = some (Exc.otherErr "socket.gaierror") ∧
    (run_simulation envConnFail).1.countP isConnectEv = 1 :=
  ⟨(only_keyboard_interrupt_caught envConnFail "socket.gaierror").1 rfl,
   (only_keyboard_interrupt_caught envConnFail "socket.gaierror").2.2.2⟩

/-- C7: every publish the loop performs goes to the fixed topic
`"cargo/telemetry"` with QoS 1 (at-least-once delivery). -/
theorem publish_topic_qos (env : Env) (t : String) (p : Json) (q : ℕ)
    (h : Event.publish t p q ∈ (run_simulation env).1) :
    t = "cargo/telemetry" ∧ q = 1 := by
  rw [run_simulation_trace_eq env, List.mem_append] at h
  rcases h with h | h
  · rcases hc : env.connectErr with _ | e
    · rw [runTryBlock_none env hc] at h
      simp only [List.mem_cons] at h
      rcases h with h | h | h | h
      · exact Event.noConfusion h
      · exact Event.noConfusion h
      · exact Event.noConfusion h
      · rcases runLoop_events env TOTAL_STEPS 0 _ h with ⟨j, hj⟩ | ⟨a, b, tq, hj⟩ | hj
        · injection hj with h1 h2 h3
          exact ⟨h1, h3⟩
        · exact Event.noConfusion hj
        · exact Event.noConfusion hj
    · rw [runTryBlock_some env e hc] at h
      simp only [List.mem_cons, List.not_mem_nil, or_false] at h
      rcases h with h | h
      · exact Event.noConfusion h
      · exact Event.noConfusion h
  · split_ifs at h <;> simp only [List.mem_cons, List.not_mem_nil, or_false] at h <;>
      rcases h with h | h | h <;> exact Event.noConfusion h

/-- Witness for C7: in the interrupted run, the one publish performed
before the interrupt went to the fixed topic with QoS 1. -/
theorem publish_topic_qos_witness : TOPIC = "cargo/telemetry" ∧ 1 = 1 :=
  publish_topic_qos envInterrupted TOPIC (readingAt envInterrupted 0) 1 (by
    rw [show (run_simulation envInterrupted).1 =
      [Event.consoleConnecting, Event.connect BROKER_ADDRESS PORT 60, Event.loopStart,
        Event.publish TOPIC (readingAt envInterrupted 0) 1,
        Event.progress 1 TOTAL_STEPS (getNum (readingAt envInterrupted 0) "temperature"),
        Event.sleep INTERVAL, Event.consoleStopping, Event.loopStop,
        Event.disconnect] from rfl]
    exact List.Mem.tail _ (List.Mem.tail _ (List.Mem.tail _ (List.Mem.head _))))
